import Mathlib

/-!
Shallow embedding of the `agsol-wasm-client` Solana RPC client
(`src/agsol-wasm-client/src/rpc_response.rs` and
`src/agsol-wasm-client/src/rpc_client.rs`), together with theorems
settling the specification claims about it.

External collaborators (the `solana_sdk` types, `serde_json`, base64 and
signature parsing, the HTTP transport) are modelled either by faithful
small definitions of the behaviour the client relies on, or as abstract
parameters where the client treats them as black boxes.
-/

/-- Model of `solana_sdk::transaction::TransactionError`: an opaque
external error value; the client never inspects it, only stores and
compares it, so an opaque code suffices. -/
structure TransactionError where
  code : Nat
deriving DecidableEq, Repr

/-- `rpc_response.rs` lines 50-56: the explicit confirmation-status enum
attached to a transaction status record. -/
inductive TransactionConfirmationStatus where
  | Processed
  | Confirmed
  | Finalized
deriving DecidableEq, Repr

/-- Model of `solana_sdk::commitment_config::CommitmentLevel` restricted
to the three variants this client constructs (`rpc_client.rs` lines
252-261). -/
inductive SdkCommitmentLevel where
  | Processed
  | Confirmed
  | Finalized
deriving DecidableEq, Repr

/-- Model of `solana_sdk::commitment_config::CommitmentConfig`. -/
structure CommitmentConfig where
  commitment : SdkCommitmentLevel
deriving DecidableEq, Repr

/-- `CommitmentConfig::is_finalized` from the external sdk. -/
def CommitmentConfig.is_finalized (c : CommitmentConfig) : Bool :=
  c.commitment = SdkCommitmentLevel.Finalized

/-- `CommitmentConfig::is_confirmed` from the external sdk. -/
def CommitmentConfig.is_confirmed (c : CommitmentConfig) : Bool :=
  c.commitment = SdkCommitmentLevel.Confirmed

deriving instance DecidableEq for Except

/-- `rpc_response.rs` lines 58-65: a transaction status record.
`status` is the legacy `TransactionResult<()>` field. -/
structure TransactionStatus where
  slot : Nat
  confirmations : Option Nat
  status : Except TransactionError Unit
  err : Option TransactionError
  confirmation_status : Option TransactionConfirmationStatus
deriving DecidableEq, Repr

/-- `TransactionStatus::satisfies_commitment`, `rpc_response.rs` lines
68-82.  The fallback arm mirrors Rust's short-circuiting
`self.confirmations.is_some() && self.confirmations.unwrap() > 1
 || self.confirmations.is_none()`:
the `unwrap` is only reached when `confirmations` is `Some`. -/
def TransactionStatus.satisfies_commitment (s : TransactionStatus)
    (commitment_config : CommitmentConfig) : Bool :=
  if commitment_config.is_finalized then
    s.confirmations.isNone
  else if commitment_config.is_confirmed then
    match s.confirmation_status with
    | some status => status ≠ TransactionConfirmationStatus.Processed
    | none =>
      (match s.confirmations with
       | some n => decide (n > 1)
       | none => false)
      || s.confirmations.isNone
  else
    true

/-- `TransactionStatus::confirmation_status` (the method),
`rpc_response.rs` lines 87-100. -/
def TransactionStatus.confirmationStatusOf (s : TransactionStatus) :
    TransactionConfirmationStatus :=
  match s.confirmation_status with
  | some status => status
  | none =>
    match s.confirmations with
    | none => TransactionConfirmationStatus.Finalized
    | some n =>
      if n > 0 then TransactionConfirmationStatus.Confirmed
      else TransactionConfirmationStatus.Processed

/-- `rpc_config::Encoding` (declared in `rpc_config.rs`; the variants
used by `rpc_client.rs` and the example are `JsonParsed`, `Base64`,
plus the spec lists `base58`). -/
inductive Encoding where
  | JsonParsed
  | Base64
  | Base58
deriving DecidableEq, Repr

/-- `rpc_config::CommitmentLevel` — the client-side commitment
preference (declared in `rpc_config.rs`; its three variants are all
matched in `rpc_client.rs` lines 252-261). -/
inductive CommitmentLevel where
  | Processed
  | Confirmed
  | Finalized
deriving DecidableEq, Repr

/-- `rpc_config::RpcConfig` — field shape visible in
`rpc_client.rs` lines 64-67 and the `block_time.rs` example. -/
structure RpcConfig where
  encoding : Option Encoding
  commitment : Option CommitmentLevel
deriving DecidableEq, Repr

/-- `rpc_config::RpcTransactionConfig` — field shape visible at its
construction sites, `rpc_client.rs` lines 279-283 and 289-293. -/
structure RpcTransactionConfig where
  skip_preflight : Bool
  preflight_commitment : Option CommitmentLevel
  encoding : Option Encoding
deriving DecidableEq, Repr

/-- `rpc_client.rs` lines 252-261: `get_signature_status` translates the
client's optional configured commitment into an sdk commitment level;
`Some(Processed)` and `Some(Finalized)` map to themselves and every
other case (including `None`) maps to `Confirmed`. -/
def commitmentOfConfig (c : Option CommitmentLevel) : SdkCommitmentLevel :=
  match c with
  | some CommitmentLevel.Processed => SdkCommitmentLevel.Processed
  | some CommitmentLevel.Finalized => SdkCommitmentLevel.Finalized
  | _ => SdkCommitmentLevel.Confirmed

/-- `Result::is_ok` on the legacy `status` field. -/
def statusIsOk (e : Except TransactionError Unit) : Bool :=
  match e with
  | Except.ok _ => true
  | Except.error _ => false

/-- `rpc_client.rs` lines 263-267: the boolean computed from one decoded
status entry:
`entry.as_ref().filter(|r| r.satisfies_commitment(cc)).map(|r| r.status.is_ok()).unwrap_or_default()`. -/
def signatureStatusOfEntry (cc : CommitmentConfig)
    (entry : Option TransactionStatus) : Bool :=
  (((entry.filter fun r => r.satisfies_commitment cc).map
      fun r => statusIsOk r.status).getD false)

/-- `rpc_client.rs` lines 263-268: `get_signature_status` indexes
`response.result.value[0]` unconditionally.  The out-of-bounds panic on
an empty `value` array is modelled as `none`; a defined run is `some b`. -/
def getSignatureStatusValue (cc : CommitmentConfig)
    (value : List (Option TransactionStatus)) : Option Bool :=
  (value.get? 0).map (signatureStatusOfEntry cc)

/-- `rpc_client.rs` lines 225-231: the polling loop of
`send_and_confirm_transaction`, driven by the (finite prefix of the)
sequence of per-poll decoded status entries.  `some k` means the loop
breaks after exactly `k` polls; `none` means it never breaks within the
supplied polls. -/
def confirmLoop (cc : CommitmentConfig) :
    List (Option TransactionStatus) → Option Nat
  | [] => none
  | entry :: rest =>
    if signatureStatusOfEntry cc entry then some 1
    else (confirmLoop cc rest).map (· + 1)

/-- `rpc_client.rs` lines 219-234: `send_and_confirm_transaction` after
a successful submit returning `sig`: poll until `get_signature_status`
is true, then return the submitted signature unchanged. -/
def sendAndConfirm (cc : CommitmentConfig) (sig : String)
    (polls : List (Option TransactionStatus)) : Option (String × Nat) :=
  (confirmLoop cc polls).map fun k => (sig, k)

/-- Model of a `serde_json::Value`: the dynamically typed payload that
`send` deserializes responses into.  Numbers are modelled as integers
(every numeric field the client decodes is integral). -/
inductive Json where
  | null : Json
  | bool : Bool → Json
  | num : Int → Json
  | str : String → Json
  | arr : List Json → Json
  | obj : List (String × Json) → Json

/-- Field lookup on a JSON object (first occurrence; a parsed
`serde_json::Value` object has unique keys). Non-objects have no
fields. -/
def Json.lookup (j : Json) (key : String) : Option Json :=
  match j with
  | Json.obj fields => fields.lookup key
  | _ => none

/-- serde deserialization of a `u64` field. -/
def decodeU64 (j : Json) : Option Nat :=
  match j with
  | Json.num n => if n < 0 then none else some n.toNat
  | _ => none

/-- serde deserialization of a `String` field. -/
def decodeString (j : Json) : Option String :=
  match j with
  | Json.str s => some s
  | _ => none

/-- serde deserialization of a `Vec<String>` field. -/
def decodeStringList (j : Json) : Option (List String) :=
  match j with
  | Json.arr elems => elems.mapM decodeString
  | _ => none

/-- `rpc_response.rs` lines 8-14: the typed response envelope.  The
single data field `result` carries `#[serde(alias = "error")]`, so the
wire payload may spell it `result` or `error`. -/
structure RpcResponse (T : Type) where
  id : Nat
  jsonrpc : String
  result : T
deriving DecidableEq, Repr

/-- serde's derived deserializer for `RpcResponse<T>`: requires `id` and
`jsonrpc`, accepts the data field under either name `result` or its
alias `error`, and rejects the payload as a duplicate field when both
names are present.  Unknown extra fields are ignored (serde default). -/
def decodeRpcResponse {T : Type} (dec : Json → Option T) (j : Json) :
    Option (RpcResponse T) := do
  let idv ← (j.lookup "id").bind decodeU64
  let ver ← (j.lookup "jsonrpc").bind decodeString
  match j.lookup "result", j.lookup "error" with
  | some _, some _ => none
  | some r, none => do pure ⟨idv, ver, ← dec r⟩
  | none, some e => do pure ⟨idv, ver, ← dec e⟩
  | none, none => none

/-- `rpc_response.rs` lines 17-19. -/
structure Context where
  slot : Nat
deriving DecidableEq, Repr

/-- `rpc_response.rs` lines 22-25. -/
structure RpcResultWithContext (T : Type) where
  context : Context
  value : T
deriving DecidableEq, Repr

/-- serde deserializer for `Context`. -/
def decodeContext (j : Json) : Option Context := do
  pure ⟨← (j.lookup "slot").bind decodeU64⟩

/-- serde deserializer for `RpcResultWithContext<T>`. -/
def decodeRpcResultWithContext {T : Type} (dec : Json → Option T)
    (j : Json) : Option (RpcResultWithContext T) := do
  let c ← (j.lookup "context").bind decodeContext
  let v ← (j.lookup "value").bind dec
  pure ⟨c, v⟩

/-- `rpc_response.rs` lines 43-48. -/
structure RpcTransactionErrorData where
  err : TransactionError
  logs : List String
deriving DecidableEq, Repr

/-- `rpc_response.rs` lines 35-41. -/
structure RpcTransactionError where
  code : Int
  data : RpcTransactionErrorData
  message : String
deriving DecidableEq, Repr

/-- serde deserializer for `RpcTransactionErrorData`; decoding of the
external `TransactionError` value in `err` is a parameter. -/
def decodeRpcTransactionErrorData
    (decErr : Json → Option TransactionError) (j : Json) :
    Option RpcTransactionErrorData := do
  let e ← (j.lookup "err").bind decErr
  let l ← (j.lookup "logs").bind decodeStringList
  pure ⟨e, l⟩

/-- serde deserializer for `RpcTransactionError`: an object with `code`,
`data` and `message`; anything that is not a JSON object fails. -/
def decodeRpcTransactionError
    (decErr : Json → Option TransactionError) (j : Json) :
    Option RpcTransactionError :=
  match j with
  | Json.obj _ => do
    let c ← j.lookup "code"
    let code ←
      match c with
      | Json.num n => some n
      | _ => none
    let d ← (j.lookup "data").bind (decodeRpcTransactionErrorData decErr)
    let m ← (j.lookup "message").bind decodeString
    pure ⟨code, d, m⟩
  | _ => none

/-- `rpc_client.rs` lines 309-332: response handling of
`send_transaction_with_config`.  The already-deserialized
`serde_json::Value` payload is first re-decoded as the success shape
`RpcResponse<String>`; on success the signature string is parsed (the
external `Signature::from_str`, here the parameter `parseSignature`,
propagated with `?`).  Otherwise the error shape
`RpcResponse<RpcTransactionError>` is tried; on success every log line
is emitted via `debug!` tagged with its `enumerate()` index and the call
bails with the server message.  Otherwise it bails with
"failed to parse RPC response".  The first component of the result is
the ordered list of emitted `(index, log)` diagnostics. -/
def sendTxHandleResponse (parseSignature : String → Option String)
    (decErr : Json → Option TransactionError) (payload : Json) :
    List (Nat × String) × Except String String :=
  match decodeRpcResponse decodeString payload with
  | some resp =>
    match parseSignature resp.result with
    | some sig => ([], Except.ok sig)
    | none => ([], Except.error "failed to parse signature")
  | none =>
    match decodeRpcResponse (decodeRpcTransactionError decErr) payload with
    | some resp =>
      (resp.result.data.logs.enum, Except.error resp.result.message)
    | none => ([], Except.error "failed to parse RPC response")

/-- `rpc_client.rs` lines 298-333: `send_transaction_with_config`.  A
transaction is represented by its `bincode` byte serialization; the
external `base64::encode` is the parameter `base64Encode`.  The result
pairs the dispatched request parameters `json!([encoded, config])` with
the handled response. -/
def send_transaction_with_config (base64Encode : List Nat → String)
    (parseSignature : String → Option String)
    (decErr : Json → Option TransactionError)
    (transaction : List Nat) (config : RpcTransactionConfig)
    (payload : Json) :
    (String × RpcTransactionConfig) ×
      (List (Nat × String) × Except String String) :=
  ((base64Encode transaction, config),
   sendTxHandleResponse parseSignature decErr payload)

/-- `rpc_client.rs` lines 275-286: `send_transaction_unchecked`. -/
def send_transaction_unchecked (base64Encode : List Nat → String)
    (parseSignature : String → Option String)
    (decErr : Json → Option TransactionError)
    (transaction : List Nat) (payload : Json) :
    (String × RpcTransactionConfig) ×
      (List (Nat × String) × Except String String) :=
  send_transaction_with_config base64Encode parseSignature decErr
    transaction
    { skip_preflight := true
      preflight_commitment := some CommitmentLevel.Processed
      encoding := some Encoding.Base64 }
    payload

/-- `rpc_client.rs` lines 288-296: `send_transaction`, inheriting the
client's configured commitment as preflight commitment. -/
def send_transaction (clientCommitment : Option CommitmentLevel)
    (base64Encode : List Nat → String)
    (parseSignature : String → Option String)
    (decErr : Json → Option TransactionError)
    (transaction : List Nat) (payload : Json) :
    (String × RpcTransactionConfig) ×
      (List (Nat × String) × Except String String) :=
  send_transaction_with_config base64Encode parseSignature decErr
    transaction
    { skip_preflight := false
      preflight_commitment := clientCommitment
      encoding := some Encoding.Base64 }
    payload

/-- `u64` modulus for the wrapping request-id counter. -/
def U64_MOD : Nat := 2 ^ 64

/-- The mutable state of `RpcClient` relevant to the claims
(`rpc_client.rs` lines 46-51): the config and the request-id counter. -/
structure RpcClientState where
  config : RpcConfig
  request_id : Nat
deriving DecidableEq, Repr

/-- `rpc_client.rs` line 79: `self.request_id = self.request_id.wrapping_add(1)`
performed by `send` before dispatch. -/
def sendIncrement (s : RpcClientState) : RpcClientState :=
  { s with request_id := (s.request_id + 1) % U64_MOD }

/-- `rpc_client.rs` lines 147-157: `get_balance` for a fixed server
response payload: the counter is bumped by `send` and the result is
`response.result.value` of the decoded
`RpcResponse<RpcResultWithContext<u64>>`; a payload that does not
deserialize is a client error. -/
def get_balance (s : RpcClientState) (response : Json) :
    RpcClientState × Except String Nat :=
  let s' := sendIncrement s
  match decodeRpcResponse (decodeRpcResultWithContext decodeU64) response with
  | some r => (s', Except.ok r.result.value)
  | none => (s', Except.error "failed to deserialize response")

/-- C1: for every transaction status record, `satisfies_commitment` with
requested commitment Confirmed is decided by the explicit
confirmation-status field first — present and not Processed means
satisfied (so explicit Confirmed or Finalized always satisfies, explicit
Processed never); with the field absent it falls back to: satisfied iff
`confirmations` is absent, or present and greater than 1. -/
theorem satisfies_commitment_confirmed_spec (s : TransactionStatus) :
    s.satisfies_commitment ⟨SdkCommitmentLevel.Confirmed⟩ = true ↔
      ((∃ st, s.confirmation_status = some st ∧
          st ≠ TransactionConfirmationStatus.Processed) ∨
       (s.confirmation_status = none ∧
         (s.confirmations = none ∨
          ∃ n, s.confirmations = some n ∧ 1 < n))) := by
  cases hcs : s.confirmation_status with
  | some st =>
    cases st <;>
      simp [TransactionStatus.satisfies_commitment,
        CommitmentConfig.is_finalized, CommitmentConfig.is_confirmed, hcs]
  | none =>
    cases hc : s.confirmations with
    | none =>
      simp [TransactionStatus.satisfies_commitment,
        CommitmentConfig.is_finalized, CommitmentConfig.is_confirmed,
        hcs, hc]
    | some n =>
      simp [TransactionStatus.satisfies_commitment,
        CommitmentConfig.is_finalized, CommitmentConfig.is_confirmed,
        hcs, hc]

/-- C2: `satisfies_commitment` with requested commitment Finalized is
satisfied iff `confirmations` is absent; any record with
`confirmations = some n` is unsatisfied regardless of `n` and of the
explicit confirmation-status field. -/
theorem satisfies_commitment_finalized_spec (s : TransactionStatus) :
    s.satisfies_commitment ⟨SdkCommitmentLevel.Finalized⟩ = true ↔
      s.confirmations = none := by
  cases hc : s.confirmations with
  | none =>
    simp [TransactionStatus.satisfies_commitment,
      CommitmentConfig.is_finalized, hc]
  | some n =>
    simp [TransactionStatus.satisfies_commitment,
      CommitmentConfig.is_finalized, hc]

/-- A present status record that only reached Processed: it exists, yet
under the Confirmed evaluation that an unspecified client commitment
falls back to, it is not satisfied. -/
def processedOnlyRecord : TransactionStatus :=
  { slot := 0
    confirmations := some 0
    status := Except.ok ()
    err := none
    confirmation_status := some TransactionConfirmationStatus.Processed }

/-- C3 counterexample: with the client's configured commitment
unspecified (`none`), `get_signature_status` does NOT treat a present
record as satisfied: the catch-all arm of the commitment translation
maps `None` to `Confirmed`, and a present record that only reached
Processed is reported unsatisfied (`false`), contradicting the claim
that any existing record is satisfied under an unspecified commitment. -/
theorem get_signature_status_unspecified_commitment_cex :
    commitmentOfConfig none = SdkCommitmentLevel.Confirmed ∧
    signatureStatusOfEntry ⟨commitmentOfConfig none⟩
      (some processedOnlyRecord) = false := by
  decide

/-- C3 amended: when the requested commitment is Processed the evaluator
satisfies any existing record; but an unspecified (None) client
commitment is translated by `get_signature_status`'s catch-all arm to
Confirmed, so a present record is evaluated under Confirmed rather than
being automatically satisfied. -/
theorem get_signature_status_processed_and_unspecified :
    (∀ s : TransactionStatus,
      s.satisfies_commitment ⟨SdkCommitmentLevel.Processed⟩ = true) ∧
    (∀ entry : Option TransactionStatus,
      signatureStatusOfEntry ⟨commitmentOfConfig none⟩ entry =
        signatureStatusOfEntry ⟨SdkCommitmentLevel.Confirmed⟩ entry) := by
  constructor
  · intro s
    simp [TransactionStatus.satisfies_commitment,
      CommitmentConfig.is_finalized, CommitmentConfig.is_confirmed]
  · intro entry
    rfl

/-- If the wire payload carries an `error` field holding a JSON object,
the success shape `RpcResponse<String>` cannot deserialize it: either
`result` is also present (duplicate data field) or the object fails to
decode as a `String`. -/
theorem decodeString_shape_fails_on_error_object
    (payload : Json) (fields : List (String × Json))
    (herr : payload.lookup "error" = some (Json.obj fields)) :
    decodeRpcResponse decodeString payload = none := by
  unfold decodeRpcResponse
  cases hid : (payload.lookup "id").bind decodeU64 with
  | none => simp [hid]
  | some idv =>
    cases hver : (payload.lookup "jsonrpc").bind decodeString with
    | none => simp [hid, hver]
    | some ver =>
      cases hres : payload.lookup "result" with
      | none => simp [hid, hver, hres, herr, decodeString]
      | some r => simp [hid, hver, hres, herr]

/-- C4: a received payload whose envelope carries an error object is
never returned as a successful result: the call fails, either with the
specifically decoded transaction-error message or as a malformed
response; and whenever the payload does decode as the specific
transaction-error shape, the call fails with exactly that error's
message (the specific error wins over the generic `serde_json::Value`
shape every payload matches). -/
theorem send_transaction_error_envelope_never_success
    (parseSignature : String → Option String)
    (decErr : Json → Option TransactionError)
    (payload : Json) (fields : List (String × Json))
    (herr : payload.lookup "error" = some (Json.obj fields)) :
    (∃ msg, (sendTxHandleResponse parseSignature decErr payload).2 =
      Except.error msg) ∧
    (∀ resp,
      decodeRpcResponse (decodeRpcTransactionError decErr) payload =
        some resp →
      (sendTxHandleResponse parseSignature decErr payload).2 =
        Except.error resp.result.message) := by
  have hfail := decodeString_shape_fails_on_error_object payload fields herr
  constructor
  · cases hdec :
      decodeRpcResponse (decodeRpcTransactionError decErr) payload with
    | some resp =>
      exact ⟨resp.result.message, by simp [sendTxHandleResponse, hfail, hdec]⟩
    | none =>
      exact ⟨"failed to parse RPC response",
        by simp [sendTxHandleResponse, hfail, hdec]⟩
  · intro resp hresp
    simp [sendTxHandleResponse, hfail, hresp]

/-- The error payload of the spec's end-to-end scenario B. -/
def scenarioBErrorFields : List (String × Json) :=
  [("code", Json.num (-32002)),
   ("data", Json.obj [("err", Json.null),
                      ("logs", Json.arr [Json.str "log0", Json.str "log1"])]),
   ("message", Json.str "Transaction simulation failed")]

/-- A complete error-envelope payload for scenario B. -/
def scenarioBPayload : Json :=
  Json.obj [("id", Json.num 1), ("jsonrpc", Json.str "2.0"),
            ("error", Json.obj scenarioBErrorFields)]

/-- Witness for C4 at the concrete scenario-B payload. -/
theorem send_transaction_error_envelope_never_success_witness :
    (sendTxHandleResponse (fun s => some s) (fun _ => some ⟨0⟩)
        scenarioBPayload).2 =
      Except.error "Transaction simulation failed" :=
  (send_transaction_error_envelope_never_success (fun s => some s)
      (fun _ => some ⟨0⟩) scenarioBPayload scenarioBErrorFields rfl).2
    ⟨1, "2.0", ⟨-32002, ⟨⟨0⟩, ["log0", "log1"]⟩,
      "Transaction simulation failed"⟩⟩ rfl

/-- C5: when the payload does not parse as the signature-string success
shape but parses as the transaction-error shape, the call emits exactly
one diagnostic per log line, in order, the i-th tagged with zero-based
index i, and fails with exactly the server-provided message. -/
theorem send_transaction_error_logs_and_message
    (parseSignature : String → Option String)
    (decErr : Json → Option TransactionError) (payload : Json)
    (resp : RpcResponse RpcTransactionError)
    (hfail : decodeRpcResponse decodeString payload = none)
    (hok : decodeRpcResponse (decodeRpcTransactionError decErr) payload =
      some resp) :
    (sendTxHandleResponse parseSignature decErr payload).1.length =
      resp.result.data.logs.length ∧
    (∀ i : Nat,
      (sendTxHandleResponse parseSignature decErr payload).1[i]? =
        (resp.result.data.logs[i]?).map fun log => (i, log)) ∧
    (sendTxHandleResponse parseSignature decErr payload).2 =
      Except.error resp.result.message := by
  have h : sendTxHandleResponse parseSignature decErr payload =
      (resp.result.data.logs.enum, Except.error resp.result.message) := by
    simp [sendTxHandleResponse, hfail, hok]
  rw [h]
  exact ⟨List.enum_length, fun i => List.getElem?_enum _ _, rfl⟩

/-- Witness for C5 at the concrete scenario-B payload: both log lines
are emitted in order 0, 1, and the call fails with the server's
message. -/
theorem send_transaction_error_logs_and_message_witness :
    (sendTxHandleResponse (fun s => some s) (fun _ => some ⟨0⟩)
        scenarioBPayload).1[0]? = some (0, "log0") ∧
    (sendTxHandleResponse (fun s => some s) (fun _ => some ⟨0⟩)
        scenarioBPayload).1[1]? = some (1, "log1") ∧
    (sendTxHandleResponse (fun s => some s) (fun _ => some ⟨0⟩)
        scenarioBPayload).2 =
      Except.error "Transaction simulation failed" := by
  have h := send_transaction_error_logs_and_message (fun s => some s)
    (fun _ => some ⟨0⟩) scenarioBPayload
    ⟨1, "2.0", ⟨-32002, ⟨⟨0⟩, ["log0", "log1"]⟩,
      "Transaction simulation failed"⟩⟩ rfl rfl
  exact ⟨h.2.1 0, h.2.1 1, h.2.2⟩

/-- A finalized record whose legacy `status` field reports an on-chain
execution error. -/
def finalizedFailedRecord : TransactionStatus :=
  { slot := 0
    confirmations := none
    status := Except.error ⟨1⟩
    err := some ⟨1⟩
    confirmation_status := some TransactionConfirmationStatus.Finalized }

/-- C6 counterexample: with n = 0 unsatisfying polls, poll 1 returns a
record satisfying the configured (Confirmed) commitment, yet the polling
loop does not return after poll 1 — the record's legacy status is `Err`,
and `get_signature_status` also requires `status.is_ok()`. -/
theorem send_and_confirm_satisfying_record_cex :
    finalizedFailedRecord.satisfies_commitment
      ⟨SdkCommitmentLevel.Confirmed⟩ = true ∧
    confirmLoop ⟨SdkCommitmentLevel.Confirmed⟩ [some finalizedFailedRecord] =
      none := by
  decide

/-- C6 amended: absent records are treated as not-satisfied rather than
an error, the loop keeps polling past every poll whose entry yields
`false`, and when poll n+1 returns a record that satisfies the
configured commitment AND whose legacy status field is Ok,
`send_and_confirm_transaction` returns the submitted signature exactly
after poll n+1. -/
theorem send_and_confirm_returns_after_first_satisfied
    (cc : CommitmentConfig) (sig : String)
    (pre rest : List (Option TransactionStatus)) (r : TransactionStatus)
    (hpre : ∀ entry ∈ pre, signatureStatusOfEntry cc entry = false)
    (hsat : r.satisfies_commitment cc = true)
    (hok : statusIsOk r.status = true) :
    signatureStatusOfEntry cc none = false ∧
    sendAndConfirm cc sig (pre ++ some r :: rest) =
      some (sig, pre.length + 1) := by
  refine ⟨rfl, ?_⟩
  have hr : signatureStatusOfEntry cc (some r) = true := by
    simp [signatureStatusOfEntry, Option.filter, hsat, hok]
  unfold sendAndConfirm
  induction pre with
  | nil => simp [confirmLoop, hr]
  | cons entry tail ih =>
    have hentry : signatureStatusOfEntry cc entry = false :=
      hpre entry (List.mem_cons_self entry tail)
    have htail : ∀ e ∈ tail, signatureStatusOfEntry cc e = false :=
      fun e he => hpre e (List.mem_cons_of_mem entry he)
    have ihres := ih htail
    simp only [List.cons_append, confirmLoop, hentry, if_neg, Bool.false_eq_true,
      not_false_eq_true, List.length_cons]
    cases hcl : confirmLoop cc (tail ++ some r :: rest) with
    | none => simp [hcl] at ihres
    | some k =>
      simp [hcl] at ihres ⊢
      omega

/-- The satisfying third-poll record of the spec's end-to-end scenario
C: no confirmations count and explicit Finalized status. -/
def finalizedOkRecord : TransactionStatus :=
  { slot := 0
    confirmations := none
    status := Except.ok ()
    err := none
    confirmation_status := some TransactionConfirmationStatus.Finalized }

/-- Witness for the amended C6 at scenario C: two polls with no status
record, then a finalized record — the call returns the signature exactly
after the third poll. -/
theorem send_and_confirm_returns_after_first_satisfied_witness :
    sendAndConfirm ⟨SdkCommitmentLevel.Confirmed⟩ "sig"
      [none, none, some finalizedOkRecord] = some ("sig", 3) :=
  (send_and_confirm_returns_after_first_satisfied
    ⟨SdkCommitmentLevel.Confirmed⟩ "sig" [none, none] []
    finalizedOkRecord (by decide) (by decide) rfl).2

/-- C7: the boolean reported by `get_signature_status` is true exactly
when a status record exists, satisfies the evaluated commitment, and has
legacy `status` Ok; a record reporting an execution error yields `false`
(not a client error, since the chain is total once the response is
decoded); consequently the confirmation loop never breaks on any
sequence of polls whose records all report execution errors. -/
theorem get_signature_status_ok_semantics
    (cc : CommitmentConfig) (entry : Option TransactionStatus) :
    (signatureStatusOfEntry cc entry = true ↔
      ∃ r, entry = some r ∧ r.satisfies_commitment cc = true ∧
        r.status = Except.ok ()) ∧
    (∀ r, entry = some r → statusIsOk r.status = false →
      signatureStatusOfEntry cc entry = false) ∧
    (∀ polls : List (Option TransactionStatus),
      (∀ e ∈ polls, ∀ r, e = some r → statusIsOk r.status = false) →
      confirmLoop cc polls = none) := by
  refine ⟨?_, ?_, ?_⟩
  · cases entry with
    | none => simp [signatureStatusOfEntry]
    | some r =>
      cases hsat : r.satisfies_commitment cc with
      | false => simp [signatureStatusOfEntry, Option.filter, hsat]
      | true =>
        cases hst : r.status with
        | ok u => simp [signatureStatusOfEntry, Option.filter, hsat, hst,
            statusIsOk]
        | error e => simp [signatureStatusOfEntry, Option.filter, hsat, hst,
            statusIsOk]
  · intro r hentry hne
    subst hentry
    cases hsat : r.satisfies_commitment cc with
    | false => simp [signatureStatusOfEntry, Option.filter, hsat]
    | true => simp [signatureStatusOfEntry, Option.filter, hsat, hne]
  · intro polls h
    induction polls with
    | nil => rfl
    | cons e tail ih =>
      have hefalse : signatureStatusOfEntry cc e = false := by
        cases e with
        | none => rfl
        | some r =>
          have hr := h (some r) (List.mem_cons_self _ _) r rfl
          cases hsat : r.satisfies_commitment cc with
          | false => simp [signatureStatusOfEntry, Option.filter, hsat]
          | true => simp [signatureStatusOfEntry, Option.filter, hsat, hr]
      have htail := ih (fun e' he' => h e' (List.mem_cons_of_mem _ he'))
      simp [confirmLoop, hefalse, htail]

/-- Witness for C7: a finalized record whose execution failed is
reported `false` by `get_signature_status`, not an error. -/
theorem get_signature_status_ok_semantics_witness :
    signatureStatusOfEntry ⟨SdkCommitmentLevel.Confirmed⟩
      (some finalizedFailedRecord) = false :=
  (get_signature_status_ok_semantics ⟨SdkCommitmentLevel.Confirmed⟩
      (some finalizedFailedRecord)).2.1 finalizedFailedRecord rfl rfl

/-- C8: `get_signature_status` unconditionally indexes element 0 of the
decoded status vector; on a response whose `value` array is empty the
indexing is out of bounds (a panic, modelled as `none`), while any
non-empty array always yields a defined boolean. -/
theorem get_signature_status_indexes_head (cc : CommitmentConfig) :
    getSignatureStatusValue cc [] = none ∧
    (∀ entry rest, getSignatureStatusValue cc (entry :: rest) =
      some (signatureStatusOfEntry cc entry)) := by
  exact ⟨rfl, fun entry rest => rfl⟩

/-- A concrete successful `getBalance` response payload with value 42
at slot 7. -/
def balanceResponsePayload : Json :=
  Json.obj [("id", Json.num 3), ("jsonrpc", Json.str "2.0"),
            ("result", Json.obj
              [("context", Json.obj [("slot", Json.num 7)]),
               ("value", Json.num 42)])]

/-- C9: for a fixed server response, the value returned by
`get_balance` does not depend on the request-id counter (two client
states sharing a config but differing in the counter return identical
results), and each call advances the counter by exactly one, wrapping
to 0 at the u64 overflow boundary. -/
theorem get_balance_counter_independence
    (s1 s2 : RpcClientState) (response : Json)
    (_hcfg : s1.config = s2.config) :
    (get_balance s1 response).2 = (get_balance s2 response).2 ∧
    (get_balance s1 response).1.request_id = (s1.request_id + 1) % U64_MOD ∧
    (s1.request_id + 1 < U64_MOD →
      (get_balance s1 response).1.request_id = s1.request_id + 1) ∧
    (s1.request_id = U64_MOD - 1 →
      (get_balance s1 response).1.request_id = 0) := by
  refine ⟨?_, ?_, ?_, ?_⟩
  · unfold get_balance
    cases hdec : decodeRpcResponse
        (decodeRpcResultWithContext decodeU64) response <;> simp [hdec]
  · unfold get_balance
    cases hdec : decodeRpcResponse
        (decodeRpcResultWithContext decodeU64) response <;>
      simp [hdec, sendIncrement]
  · intro hlt
    unfold get_balance
    cases hdec : decodeRpcResponse
        (decodeRpcResultWithContext decodeU64) response <;>
      simp [hdec, sendIncrement, Nat.mod_eq_of_lt hlt]
  · intro hmax
    unfold get_balance
    cases hdec : decodeRpcResponse
        (decodeRpcResultWithContext decodeU64) response <;>
      simp [hdec, sendIncrement, hmax, U64_MOD]

/-- Witness for C9 at two concrete states differing only in the
counter, against a concrete balance response. -/
theorem get_balance_counter_independence_witness :
    (get_balance ⟨⟨some Encoding.JsonParsed, some CommitmentLevel.Confirmed⟩, 5⟩
        balanceResponsePayload).2 =
      (get_balance ⟨⟨some Encoding.JsonParsed, some CommitmentLevel.Confirmed⟩, 900⟩
        balanceResponsePayload).2 ∧
    (get_balance ⟨⟨some Encoding.JsonParsed, some CommitmentLevel.Confirmed⟩, 5⟩
        balanceResponsePayload).1.request_id = 6 := by
  have h := get_balance_counter_independence
    ⟨⟨some Encoding.JsonParsed, some CommitmentLevel.Confirmed⟩, 5⟩
    ⟨⟨some Encoding.JsonParsed, some CommitmentLevel.Confirmed⟩, 900⟩
    balanceResponsePayload rfl
  exact ⟨h.1, h.2.2.1 (by decide)⟩

/-- C10: the unchecked submission variant dispatches with skip-preflight
true and preflight commitment Processed; the checked variant dispatches
with skip-preflight false and the client's configured commitment; both
set base64 payload encoding, delegate to the same
`send_transaction_with_config`, and produce the identical encoded
payload and response handling. -/
theorem send_transaction_variants_spec
    (clientCommitment : Option CommitmentLevel)
    (base64Encode : List Nat → String)
    (parseSignature : String → Option String)
    (decErr : Json → Option TransactionError)
    (transaction : List Nat) (payload : Json) :
    send_transaction_unchecked base64Encode parseSignature decErr
        transaction payload =
      send_transaction_with_config base64Encode parseSignature decErr
        transaction
        { skip_preflight := true
          preflight_commitment := some CommitmentLevel.Processed
          encoding := some Encoding.Base64 } payload ∧
    send_transaction clientCommitment base64Encode parseSignature decErr
        transaction payload =
      send_transaction_with_config base64Encode parseSignature decErr
        transaction
        { skip_preflight := false
          preflight_commitment := clientCommitment
          encoding := some Encoding.Base64 } payload ∧
    (send_transaction_unchecked base64Encode parseSignature decErr
        transaction payload).1.1 =
      (send_transaction clientCommitment base64Encode parseSignature decErr
        transaction payload).1.1 ∧
    (send_transaction_unchecked base64Encode parseSignature decErr
        transaction payload).2 =
      (send_transaction clientCommitment base64Encode parseSignature decErr
        transaction payload).2 := by
  exact ⟨rfl, rfl, rfl, rfl⟩
